import Mathlib

/-!
Verification model of the mock-server core (`server.js`):
the in-memory endpoint registry (`db.mockEndpoints`, a JS `Map`),
the placeholder renderer `evaluateDynamicResponse`, the dispatch
handler `app.all('/api/mock/:endpointId')`, the create handler
`app.post('/api/mock-endpoints')` and the update handler
`app.put('/api/mock-endpoints/:endpointId')`.

JavaScript values appearing in request data and response templates are
modelled by `JValue`.  Numeric literals are modelled as integers (the
claims under study involve no fractional numbers), and string escapes
are modelled up to the standard single-character escapes (`\u` escapes
are outside the model; no input considered here uses them).
-/

/-- JSON-like JavaScript value (numbers restricted to integers). -/
inductive JValue where
  | null : JValue
  | bool : Bool → JValue
  | num : Int → JValue
  | str : String → JValue
  | arr : List JValue → JValue
  | obj : List (String × JValue) → JValue
deriving Repr

/-- JavaScript truthiness of a `JValue` (`undefined` is represented by
`Option.none` at use sites).  `null`, `false`, `0` and `""` are falsy;
objects and arrays are always truthy. -/
def jsTruthy : JValue → Bool
  | .null => false
  | .bool b => b
  | .num n => n != 0
  | .str s => s != ""
  | .arr _ => true
  | .obj _ => true

mutual
/-- JavaScript `String(v)` coercion: strings stay themselves, numbers and
booleans print, `null` prints `"null"`, arrays join their elements with
commas (`null` elements becoming empty), plain objects become
`"[object Object]"`. -/
def jsToString : JValue → String
  | .null => "null"
  | .bool true => "true"
  | .bool false => "false"
  | .num n => toString n
  | .str s => s
  | .arr xs => jsArrJoin xs
  | .obj _ => "[object Object]"
termination_by structural v => v

/-- `Array.prototype.toString`: comma-joined element coercions, with
`null` elements rendered as the empty string. -/
def jsArrJoin : List JValue → String
  | [] => ""
  | [.null] => ""
  | [x] => jsToString x
  | .null :: xs => "," ++ jsArrJoin xs
  | x :: xs => jsToString x ++ "," ++ jsArrJoin xs
termination_by structural xs => xs
end

/-- A word character in the sense of the regex `\w`: `[A-Za-z0-9_]`. -/
def wordChar (c : Char) : Bool :=
  c.isAlphanum || c = '_'

/-- The per-call request data seen by the handlers: `req.method`,
`req.params`, `req.query`, `req.body` (each map modelled as an
association list; an absent key is JavaScript `undefined`). -/
structure Req where
  method : String
  params : List (String × JValue)
  query : List (String × JValue)
  body : List (String × JValue)
deriving Repr

/-- Keep an optional value only when it is truthy; models one operand of
a JavaScript `||` chain over possibly-`undefined` lookups. -/
def truthyVal (o : Option JValue) : Option JValue :=
  match o with
  | some v => if jsTruthy v then some v else none
  | none => none

/-- The replacement callback of
`template.replace(/\x7b\x7b(\w+)\x7d\x7d/g, (match, param) =>
req.params[param] || req.query[param] || req.body[param] || match)`:
the first truthy value among the path-, query- and body-parameter
lookups, coerced to a string, and the matched text itself when all
three are absent or falsy. -/
def resolveParam (req : Req) (name match0 : String) : String :=
  match truthyVal (req.params.lookup name) with
  | some v => jsToString v
  | none =>
    match truthyVal (req.query.lookup name) with
    | some v => jsToString v
    | none =>
      match truthyVal (req.body.lookup name) with
      | some v => jsToString v
      | none => match0

/-- One pass of the global-regex replace over a character list.  At each
position the engine tries to match `\x7b\x7b(\w+)\x7d\x7d`; on success the
whole match is consumed and substituted via `resolveParam`, on failure one
character is emitted and scanning resumes one position later.  `fuel`
bounds the recursion; each step consumes at least one character, so
`cs.length + 1` fuel always suffices. -/
def renderGo (req : Req) : Nat → List Char → List Char
  | 0, cs => cs
  | _ + 1, [] => []
  | fuel + 1, c :: cs =>
    match c, cs with
    | '{', '{' :: rest =>
      match rest.takeWhile wordChar, rest.dropWhile wordChar with
      | wc :: ws, '}' :: '}' :: rest2 =>
        (resolveParam req (String.mk (wc :: ws))
          (String.mk ('{' :: '{' :: ((wc :: ws) ++ ['}', '}'])))).data
          ++ renderGo req fuel rest2
      | _, _ => c :: renderGo req fuel cs
    | _, _ => c :: renderGo req fuel cs

/-- `s.replace(/\x7b\x7b(\w+)\x7d\x7d/g, ...)` on a whole string. -/
def renderString (req : Req) (s : String) : String :=
  String.mk (renderGo req (s.data.length + 1) s.data)

example :
    renderString
      { method := "GET", params := [("id", .str "42")], query := [],
        body := [] }
      "\x7b\"id\":\"\x7b\x7bid\x7d\x7d\"\x7d" = "\x7b\"id\":\"42\"\x7d" := by
  decide

example :
    renderString
      { method := "GET", params := [], query := [], body := [] }
      "\x7b\x7bmissing\x7d\x7d" = "\x7b\x7bmissing\x7d\x7d" := by
  decide

/-! ### JSON serialization (`JSON.stringify`) -/

/-- Escape one character as inside a JSON string literal. -/
def jsonEscChar (c : Char) : List Char :=
  if c = '"' then ['\\', '"']
  else if c = '\\' then ['\\', '\\']
  else if c = '\n' then ['\\', 'n']
  else if c = '\t' then ['\\', 't']
  else if c = '\r' then ['\\', 'r']
  else [c]

/-- A JSON string literal for `s`, quotes included. -/
def jsonQuote (s : String) : String :=
  "\"" ++ String.mk (s.data.foldr (fun c acc => jsonEscChar c ++ acc) []) ++ "\""

mutual
/-- `JSON.stringify` on the modelled values. -/
def jsonStringify : JValue → String
  | .null => "null"
  | .bool true => "true"
  | .bool false => "false"
  | .num n => toString n
  | .str s => jsonQuote s
  | .arr xs => "[" ++ jsonStringifyArr xs ++ "]"
  | .obj fs => "\x7b" ++ jsonStringifyObj fs ++ "\x7d"
termination_by structural v => v

/-- Comma-separated serializations of array elements. -/
def jsonStringifyArr : List JValue → String
  | [] => ""
  | [x] => jsonStringify x
  | x :: xs => jsonStringify x ++ "," ++ jsonStringifyArr xs
termination_by structural xs => xs

/-- Comma-separated `"key":value` serializations of object members. -/
def jsonStringifyObj : List (String × JValue) → String
  | [] => ""
  | [(k, v)] => jsonQuote k ++ ":" ++ jsonStringify v
  | (k, v) :: fs => jsonQuote k ++ ":" ++ jsonStringify v ++ "," ++ jsonStringifyObj fs
termination_by structural fs => fs
end

example :
    jsonStringify (.obj [("a", .num 1), ("b", .arr [.num 2])]) =
      "\x7b\"a\":1,\"b\":[2]\x7d" := by decide

/-! ### JSON parsing (`JSON.parse`) -/

/-- JSON insignificant whitespace. -/
def isJsonWs (c : Char) : Bool :=
  c = ' ' || c = '\t' || c = '\n' || c = '\r'

/-- Drop leading JSON whitespace. -/
def skipWs : List Char → List Char
  | [] => []
  | c :: cs => if isJsonWs c then skipWs cs else c :: cs

/-- Decode one character escape inside a JSON string literal
(`\u` escapes are outside the model). -/
def jsonUnescape (c : Char) : Option Char :=
  if c = '"' then some '"'
  else if c = '\\' then some '\\'
  else if c = '/' then some '/'
  else if c = 'n' then some '\n'
  else if c = 't' then some '\t'
  else if c = 'r' then some '\r'
  else if c = 'b' then some (Char.ofNat 8)
  else if c = 'f' then some (Char.ofNat 12)
  else none

/-- Parse the body of a JSON string literal after its opening quote;
`acc` holds the decoded characters in reverse.  Raw control characters
and bad escapes are rejected, as `JSON.parse` rejects them. -/
def parseStrAux : List Char → List Char → Option (List Char × List Char)
  | _, [] => none
  | acc, '"' :: cs => some (acc.reverse, cs)
  | _, ['\\'] => none
  | acc, '\\' :: c :: cs =>
    match jsonUnescape c with
    | some d => parseStrAux (d :: acc) cs
    | none => none
  | acc, c :: cs => if c.toNat < 32 then none else parseStrAux (c :: acc) cs

/-- Numeric value of a digit run. -/
def digitsVal (ds : List Char) : Nat :=
  ds.foldl (fun n c => 10 * n + (c.toNat - 48)) 0

/-- Parse a JSON natural-number literal (integer model: a following
`.`, `e` or `E` is rejected rather than read as a fractional numeral). -/
def parseNat (cs : List Char) : Option (Nat × List Char) :=
  match cs.takeWhile Char.isDigit, cs.dropWhile Char.isDigit with
  | [], _ => none
  | ds, r =>
    match r with
    | '.' :: _ => none
    | 'e' :: _ => none
    | 'E' :: _ => none
    | _ => some (digitsVal ds, r)

mutual
/-- Parse one JSON value.  `fuel` bounds recursion depth; the top-level
wrapper supplies more fuel than any input can consume. -/
def parseVal : Nat → List Char → Option (JValue × List Char)
  | 0, _ => none
  | fuel + 1, cs =>
    match skipWs cs with
    | '"' :: cs' =>
      match parseStrAux [] cs' with
      | some (s, r) => some (.str (String.mk s), r)
      | none => none
    | '{' :: cs' =>
      match skipWs cs' with
      | '}' :: r => some (.obj [], r)
      | cs'' =>
        match parseMembers fuel cs'' with
        | some (fs, r) => some (.obj fs, r)
        | none => none
    | '[' :: cs' =>
      match skipWs cs' with
      | ']' :: r => some (.arr [], r)
      | cs'' =>
        match parseElems fuel cs'' with
        | some (xs, r) => some (.arr xs, r)
        | none => none
    | 't' :: 'r' :: 'u' :: 'e' :: r => some (.bool true, r)
    | 'f' :: 'a' :: 'l' :: 's' :: 'e' :: r => some (.bool false, r)
    | 'n' :: 'u' :: 'l' :: 'l' :: r => some (.null, r)
    | '-' :: cs' =>
      match parseNat cs' with
      | some (n, r) => some (.num (-(n : Int)), r)
      | none => none
    | cs' =>
      match parseNat cs' with
      | some (n, r) => some (.num (n : Int), r)
      | none => none

/-- Parse the members of a non-empty JSON object up to its closing brace. -/
def parseMembers : Nat → List Char → Option (List (String × JValue) × List Char)
  | 0, _ => none
  | fuel + 1, cs =>
    match skipWs cs with
    | '"' :: cs' =>
      match parseStrAux [] cs' with
      | some (k, r) =>
        match skipWs r with
        | ':' :: r' =>
          match parseVal fuel r' with
          | some (v, r'') =>
            match skipWs r'' with
            | ',' :: r3 =>
              match parseMembers fuel r3 with
              | some (fs, r4) => some ((String.mk k, v) :: fs, r4)
              | none => none
            | '}' :: r3 => some ([(String.mk k, v)], r3)
            | _ => none
          | none => none
        | _ => none
      | none => none
    | _ => none

/-- Parse the elements of a non-empty JSON array up to its closing bracket. -/
def parseElems : Nat → List Char → Option (List JValue × List Char)
  | 0, _ => none
  | fuel + 1, cs =>
    match parseVal fuel cs with
    | some (v, r) =>
      match skipWs r with
      | ',' :: r' =>
        match parseElems fuel r' with
        | some (xs, r'') => some (v :: xs, r'')
        | none => none
      | ']' :: r' => some ([v], r')
      | _ => none
    | none => none
end

/-- `JSON.parse`: parse a complete JSON document; trailing non-whitespace
is an error. -/
def jsonParse (s : String) : Option JValue :=
  match parseVal (2 * s.data.length + 2) s.data with
  | some (v, r) =>
    match skipWs r with
    | [] => some v
    | _ => none
  | none => none

example :
    jsonParse "\x7b\"a\":1,\"b\":[2,null,true]\x7d" =
      some (.obj [("a", .num 1), ("b", .arr [.num 2, .null, .bool true])]) := rfl

example : jsonParse "\x7b\"a\":\"\"\"\x7d" = none := rfl

example : jsonParse "" = none := rfl

/-! ### `evaluateDynamicResponse` -/

/-- Whether `typeof v === 'object'` in JavaScript (`null`, arrays and
plain objects). -/
def isObjectType : JValue → Bool
  | .null => true
  | .arr _ => true
  | .obj _ => true
  | _ => false

/-- `evaluateDynamicResponse(responseTemplate, req)`: a string template is
rendered directly; an object-typed template is `JSON.stringify`-ed,
rendered, and `JSON.parse`-d back, the whole body being wrapped in
`try/catch` so that a parse failure returns the original template
unchanged; any other value is returned as-is. -/
def evaluateDynamicResponse (responseTemplate : JValue) (req : Req) : JValue :=
  match responseTemplate with
  | .str s => .str (renderString req s)
  | .num n => .num n
  | .bool b => .bool b
  | t =>
    match jsonParse (renderString req (jsonStringify t)) with
    | some v => v
    | none => t

/-! ### Registry and handlers -/

/-- One stored endpoint configuration (`mockConfig`).  Timestamps are
modelled as opaque naturals supplied by the caller. -/
structure MockConfig where
  id : String
  method : String
  response : JValue
  statusCode : Nat
  delay : Nat
  headers : List (String × String)
  createdAt : Nat
  updatedAt : Nat
deriving Repr

/-- `Map.prototype.set`: replace in place when the key exists (keeping
its position), append otherwise. -/
def mapSet (m : List (String × MockConfig)) (k : String) (v : MockConfig) :
    List (String × MockConfig) :=
  if (m.lookup k).isSome then
    m.map (fun p => if p.1 = k then (k, v) else p)
  else
    m ++ [(k, v)]

/-- Outcome of `app.all('/api/mock/:endpointId')`: either the 404
not-found report carrying `availableEndpoints`, or a response with
status, headers, rendered body, and the configured delay. -/
inductive DispatchResult where
  | notFound : List String → DispatchResult
  | ok : Nat → List (String × String) → JValue → Nat → DispatchResult
deriving Repr

/-- The dispatch handler `app.all('/api/mock/:endpointId')`: look the id
up in the registry; a miss yields the 404 payload listing
`Array.from(db.mockEndpoints.keys())`; a hit sends the evaluated
response with `mockConfig.statusCode || 200`, the configured headers,
after the configured delay. -/
def handleMock (db : List (String × MockConfig)) (endpointId : String)
    (req : Req) : DispatchResult :=
  match db.lookup endpointId with
  | none => .notFound (db.map Prod.fst)
  | some cfg =>
    .ok (if cfg.statusCode = 0 then 200 else cfg.statusCode) cfg.headers
      (evaluateDynamicResponse cfg.response req) cfg.delay

/-- The creation payload destructured by `app.post('/api/mock-endpoints')`
(`none` is an absent/`undefined` field). -/
structure CreatePayload where
  endpointId : Option String
  response : Option JValue
  method : Option String
  statusCode : Option Nat
  delay : Option Nat
  headers : Option (List (String × String))
deriving Repr

/-- Outcome of `app.post('/api/mock-endpoints')`. -/
inductive CreateResult where
  | badRequest : CreateResult
  | conflict : CreateResult
  | created : MockConfig → CreateResult
deriving Repr

/-- The create handler `app.post('/api/mock-endpoints')`: 400 when
`endpointId` is falsy or `response` is `undefined`; 409 when the id is
already registered; otherwise build the config (method defaulted to
`'GET'` and upper-cased, statusCode defaulted to 200, delay defaulted
to 0, headers defaulted to `\x7b\x7d`) and `db.mockEndpoints.set` it. -/
def createEndpoint (db : List (String × MockConfig)) (p : CreatePayload)
    (now : Nat) : CreateResult × List (String × MockConfig) :=
  match p.endpointId, p.response with
  | some id, some r =>
    if id = "" then (.badRequest, db)
    else if (db.lookup id).isSome then (.conflict, db)
    else
      let cfg : MockConfig :=
        { id := id
          method := (p.method.getD "GET").toUpper
          response := r
          statusCode := p.statusCode.getD 200
          delay := p.delay.getD 0
          headers := p.headers.getD []
          createdAt := now
          updatedAt := now }
      (.created cfg, mapSet db id cfg)
  | _, _ => (.badRequest, db)

/-- The update payload destructured by
`app.put('/api/mock-endpoints/:endpointId')`. -/
structure UpdatePayload where
  response : Option JValue
  method : Option String
  statusCode : Option Nat
  delay : Option Nat
  headers : Option (List (String × String))
deriving Repr

/-- Outcome of `app.put('/api/mock-endpoints/:endpointId')`. -/
inductive UpdateResult where
  | notFound : UpdateResult
  | updated : MockConfig → UpdateResult
deriving Repr

/-- The update handler `app.put('/api/mock-endpoints/:endpointId')`:
404 when the id is unknown; otherwise mutate in place only the fields
the payload supplies — `response` when defined, `method` and `headers`
and `statusCode` when truthy, `delay` when defined — and refresh
`updatedAt`. -/
def updateEndpoint (db : List (String × MockConfig)) (endpointId : String)
    (p : UpdatePayload) (now : Nat) : UpdateResult × List (String × MockConfig) :=
  match db.lookup endpointId with
  | none => (.notFound, db)
  | some cfg =>
    let cfg' : MockConfig :=
      { cfg with
        response := match p.response with
          | some r => r
          | none => cfg.response
        method := match p.method with
          | some m => if m = "" then cfg.method else m.toUpper
          | none => cfg.method
        statusCode := match p.statusCode with
          | some s => if s = 0 then cfg.statusCode else s
          | none => cfg.statusCode
        delay := match p.delay with
          | some d => d
          | none => cfg.delay
        headers := match p.headers with
          | some h => h
          | none => cfg.headers
        updatedAt := now }
    (.updated cfg', mapSet db endpointId cfg')

/-! ### Helper lemmas about lookup, `mapSet` and rendering -/

lemma lookup_replace_self (db : List (String × MockConfig)) (k : String)
    (v : MockConfig) (h : (db.lookup k).isSome = true) :
    (db.map (fun p => if p.1 = k then (k, v) else p)).lookup k = some v := by
  induction db with
  | nil => simp [List.lookup] at h
  | cons a t ih =>
    obtain ⟨a1, a2⟩ := a
    by_cases hk : a1 = k
    · subst hk
      simp [List.lookup_cons]
    · simp only [List.map_cons, if_neg hk]
      rw [List.lookup_cons] at h ⊢
      have hbeq : (k == a1) = false := by
        simp [beq_eq_false_iff_ne]
        exact fun he => hk he.symm
      rw [hbeq] at h ⊢
      exact ih h

lemma lookup_replace_ne (db : List (String × MockConfig)) (k : String)
    (v : MockConfig) (k' : String) (h : k' ≠ k) :
    (db.map (fun p => if p.1 = k then (k, v) else p)).lookup k' = db.lookup k' := by
  induction db with
  | nil => simp [List.lookup]
  | cons a t ih =>
    obtain ⟨a1, a2⟩ := a
    by_cases hk : a1 = k
    · subst hk
      have hbeq : (k' == a1) = false := by simpa [beq_eq_false_iff_ne] using h
      simp [List.lookup_cons, hbeq, ih]
    · simp only [List.map_cons, if_neg hk]
      rw [List.lookup_cons, List.lookup_cons]
      cases hbe : (k' == a1) with
      | true => rfl
      | false => exact ih

lemma map_fst_replace (db : List (String × MockConfig)) (k : String)
    (v : MockConfig) :
    (db.map (fun p => if p.1 = k then (k, v) else p)).map Prod.fst =
      db.map Prod.fst := by
  induction db with
  | nil => rfl
  | cons a t ih =>
    obtain ⟨a1, a2⟩ := a
    by_cases hk : a1 = k
    · subst hk
      simp [ih]
    · simp only [List.map_cons, if_neg hk]
      rw [ih]

lemma lookup_append_of_none (db l : List (String × MockConfig)) (k : String)
    (h : db.lookup k = none) : (db ++ l).lookup k = l.lookup k := by
  induction db with
  | nil => rfl
  | cons a t ih =>
    obtain ⟨a1, a2⟩ := a
    rw [List.lookup_cons] at h
    rw [List.cons_append, List.lookup_cons]
    cases hbe : (k == a1) with
    | true => rw [hbe] at h; simp at h
    | false => rw [hbe] at h; exact ih h

lemma lookup_append_of_some (db l : List (String × MockConfig)) (k : String)
    (b : MockConfig) (h : db.lookup k = some b) : (db ++ l).lookup k = some b := by
  induction db with
  | nil => simp [List.lookup] at h
  | cons a t ih =>
    obtain ⟨a1, a2⟩ := a
    rw [List.lookup_cons] at h
    rw [List.cons_append, List.lookup_cons]
    cases hbe : (k == a1) with
    | true => rw [hbe] at h; exact h
    | false => rw [hbe] at h; exact ih h

lemma mapSet_lookup_self (db : List (String × MockConfig)) (k : String)
    (v : MockConfig) : (mapSet db k v).lookup k = some v := by
  unfold mapSet
  by_cases h : (db.lookup k).isSome = true
  · rw [if_pos h]
    exact lookup_replace_self db k v h
  · rw [if_neg h]
    have hnone : db.lookup k = none := by
      cases he : db.lookup k with
      | none => rfl
      | some b => rw [he] at h; simp at h
    rw [lookup_append_of_none db _ k hnone]
    simp [List.lookup_cons]

lemma mapSet_lookup_ne (db : List (String × MockConfig)) (k : String)
    (v : MockConfig) (k' : String) (h : k' ≠ k) :
    (mapSet db k v).lookup k' = db.lookup k' := by
  unfold mapSet
  by_cases hs : (db.lookup k).isSome = true
  · rw [if_pos hs]
    exact lookup_replace_ne db k v k' h
  · rw [if_neg hs]
    cases he : db.lookup k' with
    | some b => exact lookup_append_of_some db _ k' b he
    | none =>
      rw [lookup_append_of_none db _ k' he]
      have hbeq : (k' == k) = false := by simpa [beq_eq_false_iff_ne] using h
      simp [List.lookup_cons, hbeq, List.lookup]

lemma mapSet_keys_present (db : List (String × MockConfig)) (k : String)
    (v : MockConfig) (h : (db.lookup k).isSome = true) :
    (mapSet db k v).map Prod.fst = db.map Prod.fst := by
  unfold mapSet
  rw [if_pos h]
  exact map_fst_replace db k v

lemma count_keys_zero (db : List (String × MockConfig)) (k : String)
    (h : db.lookup k = none) : (db.map Prod.fst).count k = 0 := by
  induction db with
  | nil => rfl
  | cons a t ih =>
    obtain ⟨a1, a2⟩ := a
    rw [List.lookup_cons] at h
    cases hbe : (k == a1) with
    | true => rw [hbe] at h; simp at h
    | false =>
      rw [hbe] at h
      have hne : a1 ≠ k := by
        intro he
        rw [he] at hbe
        simp at hbe
      simp only [List.map_cons]
      rw [List.count_cons]
      simp [hne, ih h]

lemma string_mk_data (s : String) : String.mk s.data = s := by
  cases s
  rfl

lemma data_ne_nil (s : String) (h : s ≠ "") : s.data ≠ [] := by
  intro hd
  apply h
  have := string_mk_data s
  rw [hd] at this
  exact this.symm

lemma takeWhile_append_stop (p : Char → Bool) (l : List Char) (x : Char)
    (t : List Char) (hl : ∀ c ∈ l, p c = true) (hx : p x = false) :
    ((l ++ x :: t).takeWhile p = l) ∧ ((l ++ x :: t).dropWhile p = x :: t) := by
  induction l with
  | nil => simp [List.takeWhile_cons, List.dropWhile_cons, hx]
  | cons c l' ih =>
    have hc : p c = true := hl c (by simp)
    have ih' := ih (fun d hd => hl d (by simp [hd]))
    simp [List.takeWhile_cons, List.dropWhile_cons, hc, ih'.1, ih'.2]

lemma renderGo_nil (req : Req) (fuel : Nat) : renderGo req fuel [] = [] := by
  cases fuel with
  | zero => rfl
  | succ f => rfl

lemma wordChar_rbrace : wordChar '}' = false := by decide

lemma renderGo_single (req : Req) (fuel : Nat) (name rest2 : List Char)
    (h1 : name ≠ []) (h2 : ∀ c ∈ name, wordChar c = true) :
    renderGo req (fuel + 1) ('{' :: '{' :: (name ++ '}' :: '}' :: rest2)) =
      (resolveParam req (String.mk name)
        (String.mk ('{' :: '{' :: (name ++ ['}', '}'])))).data
        ++ renderGo req fuel rest2 := by
  have hsplit := takeWhile_append_stop wordChar name '}' ('}' :: rest2) h2 wordChar_rbrace
  obtain ⟨c0, name', rfl⟩ : ∃ c0 name', name = c0 :: name' := by
    cases name with
    | nil => exact absurd rfl h1
    | cons c0 n' => exact ⟨c0, n', rfl⟩
  simp only [renderGo, hsplit.1, hsplit.2]

lemma renderString_single (req : Req) (name : String) (h1 : name ≠ "")
    (h2 : ∀ c ∈ name.data, wordChar c = true) :
    renderString req ("\x7b\x7b" ++ name ++ "\x7d\x7d") =
      resolveParam req name ("\x7b\x7b" ++ name ++ "\x7d\x7d") := by
  have hdata : ("\x7b\x7b" ++ name ++ "\x7d\x7d").data
      = '{' :: '{' :: (name.data ++ '}' :: '}' :: []) := by
    rw [String.data_append, String.data_append]
    rfl
  have hlen : ('{' :: '{' :: (name.data ++ '}' :: '}' :: ([] : List Char))).length
      = name.data.length + 4 := by
    simp [List.length_append]
  unfold renderString
  rw [hdata, hlen,
    renderGo_single req (name.data.length + 3 + 1) name.data [] (data_ne_nil name h1) h2]
  rw [renderGo_nil, List.append_nil, string_mk_data]
  have hmk : String.mk ('{' :: '{' :: (name.data ++ ['}', '}']))
      = "\x7b\x7b" ++ name ++ "\x7d\x7d" := by
    rw [show ('{' :: '{' :: (name.data ++ ['}', '}']))
        = ("\x7b\x7b" ++ name ++ "\x7d\x7d").data from hdata.symm]
  rw [hmk]

lemma resolveParam_all_falsy (req : Req) (name match0 : String)
    (hp : truthyVal (req.params.lookup name) = none)
    (hq : truthyVal (req.query.lookup name) = none)
    (hb : truthyVal (req.body.lookup name) = none) :
    resolveParam req name match0 = match0 := by
  unfold resolveParam
  rw [hp, hq, hb]

lemma resolveParam_method_irrel (req : Req) (m name match0 : String) :
    resolveParam { req with method := m } name match0 =
      resolveParam req name match0 := rfl

lemma renderGo_method_irrel (req : Req) (m : String) :
    ∀ (fuel : Nat) (cs : List Char),
      renderGo { req with method := m } fuel cs = renderGo req fuel cs := by
  intro fuel
  induction fuel with
  | zero => intro cs; rfl
  | succ f ih =>
    intro cs
    cases cs with
    | nil => rfl
    | cons c cs' =>
      simp only [renderGo]
      split <;> (try split) <;> simp [resolveParam_method_irrel, ih]

lemma renderString_method_irrel (req : Req) (m s : String) :
    renderString { req with method := m } s = renderString req s := by
  unfold renderString
  rw [renderGo_method_irrel]

lemma evalDyn_method_irrel (v : JValue) (req : Req) (m : String) :
    evaluateDynamicResponse v { req with method := m } =
      evaluateDynamicResponse v req := by
  cases v <;> simp [evaluateDynamicResponse, renderString_method_irrel]

lemma createEndpoint_fresh (db : List (String × MockConfig)) (p : CreatePayload)
    (id : String) (now : Nat) (r : JValue)
    (h1 : p.endpointId = some id) (h2 : id ≠ "") (hr : p.response = some r)
    (h4 : db.lookup id = none) :
    ∃ cfg, createEndpoint db p now = (.created cfg, db ++ [(id, cfg)]) ∧
      cfg.id = id := by
  have hsome : ¬((db.lookup id).isSome = true) := by
    rw [h4]
    simp
  refine ⟨{ id := id, method := (p.method.getD "GET").toUpper, response := r,
            statusCode := p.statusCode.getD 200, delay := p.delay.getD 0,
            headers := p.headers.getD [], createdAt := now,
            updatedAt := now }, ?_, rfl⟩
  simp only [createEndpoint, h1, hr]
  rw [if_neg h2, if_neg hsome]
  unfold mapSet
  rw [if_neg hsome]

lemma createEndpoint_dup (db : List (String × MockConfig)) (p : CreatePayload)
    (id : String) (now : Nat)
    (h1 : p.endpointId = some id) (h2 : id ≠ "") (hr : p.response.isSome = true)
    (h : (db.lookup id).isSome = true) :
    createEndpoint db p now = (.conflict, db) := by
  obtain ⟨r, hre⟩ := Option.isSome_iff_exists.mp hr
  simp only [createEndpoint, h1, hre]
  rw [if_neg h2, if_pos h]

/-- C1 counterexample: creating an endpoint whose `endpointId` is already
registered is REJECTED with a 409 conflict and the registry is left
unchanged — the handler does not replace the previous entry, refuting
"replaces the previous entry … never a rejection". -/
theorem C1_counterexample :
    createEndpoint
      [("e", { id := "e", method := "GET", response := .str "old",
               statusCode := 200, delay := 0, headers := [],
               createdAt := 0, updatedAt := 0 })]
      { endpointId := some "e", response := some (.str "old"),
        method := some "GET", statusCode := some 200, delay := some 0,
        headers := some [] } 1 =
      (.conflict,
        [("e", { id := "e", method := "GET", response := .str "old",
                 statusCode := 200, delay := 0, headers := [],
                 createdAt := 0, updatedAt := 0 })]) := rfl

/-- C1 (amended): after a first insert of a fresh, valid definition, a
second insert with the same identity is rejected with a conflict and
leaves the registry unchanged, so the registry holds exactly one entry
for that identity — duplicate-creation is reject-on-conflict, not an
upsert and not an append. -/
theorem C1_amended_duplicate_rejected (db : List (String × MockConfig))
    (p : CreatePayload) (id : String) (now now' : Nat)
    (h1 : p.endpointId = some id) (h2 : id ≠ "")
    (h3 : p.response.isSome = true) (h4 : db.lookup id = none) :
    (createEndpoint ((createEndpoint db p now).2) p now').1 = .conflict ∧
    (createEndpoint ((createEndpoint db p now).2) p now').2 =
      (createEndpoint db p now).2 ∧
    (((createEndpoint db p now).2).map Prod.fst).count id = 1 := by
  obtain ⟨r, hre⟩ := Option.isSome_iff_exists.mp h3
  obtain ⟨cfg, hc, hid⟩ := createEndpoint_fresh db p id now r h1 h2 hre h4
  rw [hc]
  have hlook : (db ++ [(id, cfg)]).lookup id = some cfg := by
    rw [lookup_append_of_none db _ id h4]
    simp [List.lookup_cons]
  have hconf := createEndpoint_dup (db ++ [(id, cfg)]) p id now' h1 h2 h3
    (by rw [hlook]; rfl)
  refine ⟨?_, ?_, ?_⟩
  · rw [hconf]
  · rw [hconf]
  · rw [List.map_append, List.count_append, count_keys_zero db id h4]
    simp

/-- C1 witness: the amended theorem applied at a concrete registry and
payload — the second insert of the same definition conflicts, leaves the
registry as after the first insert, and the identity occurs exactly
once. -/
theorem C1_amended_witness :
    (createEndpoint
        ((createEndpoint []
          { endpointId := some "w1", response := some (.str "v"),
            method := none, statusCode := none, delay := none,
            headers := none } 1).2)
        { endpointId := some "w1", response := some (.str "v"),
          method := none, statusCode := none, delay := none,
          headers := none } 2).1 = .conflict ∧
    (createEndpoint
        ((createEndpoint []
          { endpointId := some "w1", response := some (.str "v"),
            method := none, statusCode := none, delay := none,
            headers := none } 1).2)
        { endpointId := some "w1", response := some (.str "v"),
          method := none, statusCode := none, delay := none,
          headers := none } 2).2 =
      (createEndpoint []
        { endpointId := some "w1", response := some (.str "v"),
          method := none, statusCode := none, delay := none,
          headers := none } 1).2 ∧
    (((createEndpoint []
        { endpointId := some "w1", response := some (.str "v"),
          method := none, statusCode := none, delay := none,
          headers := none } 1).2).map Prod.fst).count "w1" = 1 :=
  C1_amended_duplicate_rejected [] _ "w1" 1 2 rfl (by decide) rfl rfl

/-- C2 counterexample: at a concrete call the rendered template text
fails to parse as JSON, yet the dispatch does not terminate with any
render-error failure — it completes as a normal response whose body is
the original, unrendered template. -/
theorem C2_counterexample :
    jsonParse (renderString
      { method := "GET", params := [], query := [("q", .str "\"")],
        body := [] }
      (jsonStringify (.obj [("a", .str "\x7b\x7bq\x7d\x7d")]))) = none ∧
    handleMock
      [("e", { id := "e", method := "GET",
               response := .obj [("a", .str "\x7b\x7bq\x7d\x7d")],
               statusCode := 200, delay := 0, headers := [],
               createdAt := 0, updatedAt := 0 })]
      "e"
      { method := "GET", params := [], query := [("q", .str "\"")],
        body := [] } =
      .ok 200 [] (.obj [("a", .str "\x7b\x7bq\x7d\x7d")]) 0 := ⟨rfl, rfl⟩

/-- C2 (amended): when the rendered text of an object-typed template
fails to parse as structured data, `evaluateDynamicResponse`'s
`try/catch` swallows the failure and returns the original unrendered
template, and the dispatch completes as a NORMAL response carrying the
endpoint's configured status code — a best-effort recovery, not a
render-error failure. -/
theorem C2_amended_parse_failure_recovered (db : List (String × MockConfig))
    (id : String) (cfg : MockConfig) (req : Req)
    (h1 : db.lookup id = some cfg)
    (h2 : isObjectType cfg.response = true)
    (h3 : jsonParse (renderString req (jsonStringify cfg.response)) = none) :
    handleMock db id req =
      .ok (if cfg.statusCode = 0 then 200 else cfg.statusCode) cfg.headers
        cfg.response cfg.delay := by
  have he : evaluateDynamicResponse cfg.response req = cfg.response := by
    cases hcr : cfg.response with
    | str s => rw [hcr] at h2; simp [isObjectType] at h2
    | num n => rw [hcr] at h2; simp [isObjectType] at h2
    | bool b => rw [hcr] at h2; simp [isObjectType] at h2
    | null => rw [hcr] at h3; simp [evaluateDynamicResponse, h3]
    | arr xs => rw [hcr] at h3; simp [evaluateDynamicResponse, h3]
    | obj fs => rw [hcr] at h3; simp [evaluateDynamicResponse, h3]
  simp only [handleMock, h1]
  rw [he]

/-- C2 witness: the amended theorem at a concrete endpoint whose
configured status is 404 — the parse-failing call completes as a normal
404 response whose body is the unrendered template. -/
theorem C2_amended_witness :
    handleMock
      [("r", { id := "r", method := "GET",
               response := .obj [("b", .str "\x7b\x7bw\x7d\x7d")],
               statusCode := 404, delay := 0, headers := [],
               createdAt := 0, updatedAt := 0 })]
      "r"
      { method := "GET", params := [], query := [("w", .str "\"")],
        body := [] } =
      .ok 404 [] (.obj [("b", .str "\x7b\x7bw\x7d\x7d")]) 0 :=
  (C2_amended_parse_failure_recovered
    [("r", { id := "r", method := "GET",
             response := .obj [("b", .str "\x7b\x7bw\x7d\x7d")],
             statusCode := 404, delay := 0, headers := [],
             createdAt := 0, updatedAt := 0 })]
    "r"
    { id := "r", method := "GET",
      response := .obj [("b", .str "\x7b\x7bw\x7d\x7d")],
      statusCode := 404, delay := 0, headers := [],
      createdAt := 0, updatedAt := 0 }
    { method := "GET", params := [], query := [("w", .str "\"")],
      body := [] }
    rfl rfl rfl).trans rfl

/-- C3 counterexample: an endpoint registered with method `GET` answers a
`POST` request with its configured response instead of the not-found
result the claim requires — the dispatcher never consults the request
method. -/
theorem C3_counterexample :
    handleMock
      [("e", { id := "e", method := "GET", response := .str "hi",
               statusCode := 200, delay := 0, headers := [],
               createdAt := 0, updatedAt := 0 })]
      "e"
      { method := "POST", params := [("endpointId", .str "e")], query := [],
        body := [] } =
      .ok 200 [] (.str "hi") 0 := rfl

/-- C3 (amended): dispatch ignores the request method entirely — the
result is invariant under changing `req.method`, and the not-found
outcome occurs exactly when the endpoint id is not registered,
regardless of methods. -/
theorem C3_amended_method_ignored (db : List (String × MockConfig))
    (id : String) (req : Req) (m : String) :
    handleMock db id { req with method := m } = handleMock db id req ∧
    (handleMock db id req = .notFound (db.map Prod.fst) ↔
      db.lookup id = none) := by
  constructor
  · cases h : db.lookup id with
    | none => simp [handleMock, h]
    | some cfg =>
      simp only [handleMock, h]
      rw [evalDyn_method_irrel]
  · cases h : db.lookup id with
    | none => simp [handleMock, h]
    | some cfg => simp [handleMock, h]

/-- C3 witness: the amended theorem at a concrete registry — changing the
request method from `GET` to `DELETE` leaves the dispatch result
unchanged, and the registered endpoint is found. -/
theorem C3_amended_witness :
    handleMock
      [("cw3", { id := "cw3", method := "PUT", response := .num 1,
                 statusCode := 200, delay := 0, headers := [],
                 createdAt := 0, updatedAt := 0 })]
      "cw3"
      { method := "DELETE", params := [], query := [], body := [] } =
      handleMock
        [("cw3", { id := "cw3", method := "PUT", response := .num 1,
                   statusCode := 200, delay := 0, headers := [],
                   createdAt := 0, updatedAt := 0 })]
        "cw3"
        { method := "GET", params := [], query := [], body := [] } ∧
    ¬(handleMock
        [("cw3", { id := "cw3", method := "PUT", response := .num 1,
                   statusCode := 200, delay := 0, headers := [],
                   createdAt := 0, updatedAt := 0 })]
        "cw3"
        { method := "GET", params := [], query := [], body := [] } =
      .notFound ["cw3"]) := by
  have h := C3_amended_method_ignored
    [("cw3", { id := "cw3", method := "PUT", response := .num 1,
               statusCode := 200, delay := 0, headers := [],
               createdAt := 0, updatedAt := 0 })]
    "cw3"
    { method := "GET", params := [], query := [], body := [] } "DELETE"
  refine ⟨h.1, fun hc => ?_⟩
  have := h.2.mp hc
  simp at this

/-- C4 counterexample: a registered identity `":id"` does not act as a
capture pattern — the request segment `"42"` does not match it, and the
dispatcher reports not-found instead of the captured match the claim
requires. -/
theorem C4_counterexample :
    handleMock
      [(":id", { id := ":id", method := "GET", response := .str "captured",
                 statusCode := 200, delay := 0, headers := [],
                 createdAt := 0, updatedAt := 0 })]
      "42"
      { method := "GET", params := [], query := [], body := [] } =
      .notFound [":id"] := rfl

/-- C4 (amended): matching a request to a registry entry is exact,
case-sensitive string equality of the whole endpoint-id segment — an
equal id is served, any different id (including one that a `:`-pattern
reading would capture) is not found. -/
theorem C4_amended_exact_string_match (pat : String) (cfg : MockConfig)
    (id : String) (req : Req) :
    (pat = id →
      handleMock [(pat, cfg)] id req =
        .ok (if cfg.statusCode = 0 then 200 else cfg.statusCode) cfg.headers
          (evaluateDynamicResponse cfg.response req) cfg.delay) ∧
    (pat ≠ id →
      handleMock [(pat, cfg)] id req = .notFound [pat]) := by
  constructor
  · intro h
    subst h
    simp [handleMock, List.lookup_cons]
  · intro h
    have hbeq : (id == pat) = false := by
      simp [beq_eq_false_iff_ne]
      exact fun he => h he.symm
    simp [handleMock, List.lookup_cons, hbeq, List.lookup]

/-- C4 witness: the amended theorem at the concrete identity `":id"` —
the exact id `":id"` is served, while `"42"` (the segment a capture
reading would accept) is not found. -/
theorem C4_amended_witness :
    handleMock
      [(":id", { id := ":id", method := "GET", response := .str "w4",
                 statusCode := 200, delay := 0, headers := [],
                 createdAt := 0, updatedAt := 0 })]
      ":id"
      { method := "GET", params := [], query := [], body := [] } =
      .ok 200 [] (.str "w4") 0 ∧
    handleMock
      [(":id", { id := ":id", method := "GET", response := .str "w4",
                 statusCode := 200, delay := 0, headers := [],
                 createdAt := 0, updatedAt := 0 })]
      "42"
      { method := "GET", params := [], query := [], body := [] } =
      .notFound [":id"] := by
  constructor
  · exact ((C4_amended_exact_string_match ":id"
      { id := ":id", method := "GET", response := .str "w4",
        statusCode := 200, delay := 0, headers := [],
        createdAt := 0, updatedAt := 0 }
      ":id"
      { method := "GET", params := [], query := [], body := [] }).1
      rfl).trans rfl
  · exact (C4_amended_exact_string_match ":id"
      { id := ":id", method := "GET", response := .str "w4",
        statusCode := 200, delay := 0, headers := [],
        createdAt := 0, updatedAt := 0 }
      "42"
      { method := "GET", params := [], query := [], body := [] }).2
      (by decide)

/-- C6 counterexample: rendering `'\x7b\x7bbody\x7d\x7d'` with
`bodyParams = \x7ba:1, b:2\x7d` leaves the placeholder unresolved (there is no
whole-body form and no parameter named `body`), not the canonical JSON
of the body; and a composite value substitutes as its JavaScript string
coercion `"[object Object]"`, not as canonical JSON. -/
theorem C6_counterexample :
    renderString
      { method := "POST", params := [], query := [],
        body := [("a", .num 1), ("b", .num 2)] }
      "\x7b\x7bbody\x7d\x7d" = "\x7b\x7bbody\x7d\x7d" ∧
    "\x7b\x7bbody\x7d\x7d" ≠ "\x7b\"a\":1,\"b\":2\x7d" ∧
    renderString
      { method := "GET", params := [],
        query := [("x", .obj [("a", .num 1)])], body := [] }
      "\x7b\x7bx\x7d\x7d" = "[object Object]" := ⟨rfl, by decide, rfl⟩

/-- C6 (amended): a placeholder `\x7b\x7bname\x7d\x7d` is replaced by the
JavaScript string coercion of the first truthy value for `name` among
path, query and body parameters — so a composite value substitutes as
`"[object Object]"`, not canonical JSON — and `\x7b\x7bbody\x7d\x7d` refers only
to a parameter literally named `body`: when no source holds a truthy
value under that name it is left unchanged. -/
theorem C6_amended_coercion_no_wholebody :
    (∀ req : Req,
      truthyVal (req.params.lookup "body") = none →
      truthyVal (req.query.lookup "body") = none →
      truthyVal (req.body.lookup "body") = none →
      renderString req "\x7b\x7bbody\x7d\x7d" = "\x7b\x7bbody\x7d\x7d") ∧
    (∀ (req : Req) (fs : List (String × JValue)),
      truthyVal (req.params.lookup "x") = none →
      req.query.lookup "x" = some (.obj fs) →
      renderString req "\x7b\x7bx\x7d\x7d" = "[object Object]") := by
  constructor
  · intro req hp hq hb
    rw [show ("\x7b\x7bbody\x7d\x7d" : String) =
        "\x7b\x7b" ++ "body" ++ "\x7d\x7d" from rfl]
    rw [renderString_single req "body" (by decide) (by decide),
      resolveParam_all_falsy req "body" _ hp hq hb]
  · intro req fs hp hq
    rw [show ("\x7b\x7bx\x7d\x7d" : String) = "\x7b\x7b" ++ "x" ++ "\x7d\x7d" from rfl]
    rw [renderString_single req "x" (by decide) (by decide)]
    unfold resolveParam
    rw [hp, hq]
    simp [truthyVal, jsTruthy, jsToString]

/-- C6 witness: the amended theorem at concrete requests — with
`bodyParams = \x7ba:3\x7d` and a falsy `body` path parameter, `\x7b\x7bbody\x7d\x7d`
stays unchanged; a query parameter holding an object renders as
`"[object Object]"`. -/
theorem C6_amended_witness :
    renderString
      { method := "GET", params := [("body", .str "")], query := [],
        body := [("a", .num 3)] }
      "\x7b\x7bbody\x7d\x7d" = "\x7b\x7bbody\x7d\x7d" ∧
    renderString
      { method := "GET", params := [],
        query := [("x", .obj [("k", .str "v")])], body := [] }
      "\x7b\x7bx\x7d\x7d" = "[object Object]" :=
  ⟨C6_amended_coercion_no_wholebody.1
      { method := "GET", params := [("body", .str "")], query := [],
        body := [("a", .num 3)] } rfl rfl rfl,
    C6_amended_coercion_no_wholebody.2
      { method := "GET", params := [],
        query := [("x", .obj [("k", .str "v")])], body := [] }
      [("k", .str "v")] rfl rfl⟩

/-- C7: a placeholder whose name is present in none of the path, query
and body parameter maps is left unchanged (unresolved) in the rendered
output text — it is neither an error nor removed. -/
theorem C7_unknown_placeholder_left_unchanged (req : Req) (name : String)
    (h1 : name ≠ "") (h2 : ∀ c ∈ name.data, wordChar c = true)
    (hp : req.params.lookup name = none) (hq : req.query.lookup name = none)
    (hb : req.body.lookup name = none) :
    renderString req ("\x7b\x7b" ++ name ++ "\x7d\x7d") =
      "\x7b\x7b" ++ name ++ "\x7d\x7d" := by
  rw [renderString_single req name h1 h2,
    resolveParam_all_falsy req name _ (by rw [hp]; rfl) (by rw [hq]; rfl)
      (by rw [hb]; rfl)]

/-- C7 witness: the theorem at a concrete request that binds other
names but not `"missing"` — the placeholder survives verbatim. -/
theorem C7_witness :
    renderString
      { method := "GET", params := [("id", .str "7")],
        query := [("q", .num 5)], body := [("a", .bool true)] }
      ("\x7b\x7b" ++ "missing" ++ "\x7d\x7d") =
      "\x7b\x7b" ++ "missing" ++ "\x7d\x7d" :=
  C7_unknown_placeholder_left_unchanged
    { method := "GET", params := [("id", .str "7")],
      query := [("q", .num 5)], body := [("a", .bool true)] }
    "missing" (by decide) (by decide) rfl rfl rfl

/-- C8 counterexample: the dispatcher has no render-error failure to be
distinct from — at a concrete call whose rendered text fails to parse,
the result is a normal success response (the unrendered template), not
a failure of any kind, so "distinct … from a render-error failure"
has no witness in the code's outcome taxonomy. -/
theorem C8_counterexample :
    jsonParse (renderString
      { method := "GET", params := [], query := [("w", .str "\"")],
        body := [] }
      (jsonStringify (.obj [("msg", .str "\x7b\x7bw\x7d\x7d")]))) = none ∧
    handleMock
      [("ep", { id := "ep", method := "GET",
                response := .obj [("msg", .str "\x7b\x7bw\x7d\x7d")],
                statusCode := 201, delay := 7, headers := [],
                createdAt := 0, updatedAt := 0 })]
      "ep"
      { method := "GET", params := [], query := [("w", .str "\"")],
        body := [] } =
      .ok 201 [] (.obj [("msg", .str "\x7b\x7bw\x7d\x7d")]) 7 := ⟨rfl, rfl⟩

/-- C8 (amended): a dispatched call that matches no registered endpoint
yields the not-found failure carrying the list of ALL currently
registered endpoint identities, and it is the only failure outcome the
dispatcher produces. -/
theorem C8_amended_notfound_carries_identities
    (db : List (String × MockConfig)) (id : String) (req : Req)
    (h : db.lookup id = none) :
    handleMock db id req = .notFound (db.map Prod.fst) := by
  unfold handleMock
  rw [h]

/-- C8 witness: the amended theorem at a concrete two-entry registry —
the unmatched call reports both registered identities. -/
theorem C8_amended_witness :
    handleMock
      [("demo-user", { id := "demo-user", method := "GET",
                       response := .str "u", statusCode := 200, delay := 0,
                       headers := [], createdAt := 0, updatedAt := 0 }),
       ("demo-products", { id := "demo-products", method := "GET",
                           response := .str "p", statusCode := 200,
                           delay := 0, headers := [], createdAt := 0,
                           updatedAt := 0 })]
      "nope"
      { method := "GET", params := [], query := [], body := [] } =
      .notFound ["demo-user", "demo-products"] :=
  (C8_amended_notfound_carries_identities
    [("demo-user", { id := "demo-user", method := "GET",
                     response := .str "u", statusCode := 200, delay := 0,
                     headers := [], createdAt := 0, updatedAt := 0 }),
     ("demo-products", { id := "demo-products", method := "GET",
                         response := .str "p", statusCode := 200,
                         delay := 0, headers := [], createdAt := 0,
                         updatedAt := 0 })]
    "nope"
    { method := "GET", params := [], query := [], body := [] } rfl).trans rfl

/-- C9: placeholder resolution tries path, then query, then body
parameters in that order, skipping any source whose value for the name
is falsy (empty string, 0, false, null); when every source's value is
falsy or absent the matched text is returned and the placeholder stays
unresolved in the rendered output — in particular a path parameter
bound to `""` never substitutes. -/
theorem C9_falsy_values_skipped_in_order (req : Req) (name match0 : String) :
    (∀ v, req.params.lookup name = some v → jsTruthy v = true →
      resolveParam req name match0 = jsToString v) ∧
    (truthyVal (req.params.lookup name) = none →
      ∀ v, req.query.lookup name = some v → jsTruthy v = true →
        resolveParam req name match0 = jsToString v) ∧
    (truthyVal (req.params.lookup name) = none →
      truthyVal (req.query.lookup name) = none →
      ∀ v, req.body.lookup name = some v → jsTruthy v = true →
        resolveParam req name match0 = jsToString v) ∧
    (truthyVal (req.params.lookup name) = none →
      truthyVal (req.query.lookup name) = none →
      truthyVal (req.body.lookup name) = none →
      resolveParam req name match0 = match0) ∧
    (name ≠ "" → (∀ c ∈ name.data, wordChar c = true) →
      truthyVal (req.params.lookup name) = none →
      truthyVal (req.query.lookup name) = none →
      truthyVal (req.body.lookup name) = none →
      renderString req ("\x7b\x7b" ++ name ++ "\x7d\x7d") =
        "\x7b\x7b" ++ name ++ "\x7d\x7d") := by
  refine ⟨?_, ?_, ?_, ?_, ?_⟩
  · intro v hv ht
    unfold resolveParam
    rw [hv]
    simp [truthyVal, ht]
  · intro hp v hv ht
    unfold resolveParam
    rw [hp, hv]
    simp [truthyVal, ht]
  · intro hp hq v hv ht
    unfold resolveParam
    rw [hp, hq, hv]
    simp [truthyVal, ht]
  · exact resolveParam_all_falsy req name match0
  · intro h1 h2 hp hq hb
    rw [renderString_single req name h1 h2,
      resolveParam_all_falsy req name _ hp hq hb]

/-- C9 witness: the theorem at a concrete request whose path parameter
for `"u"` is the empty string — resolution skips it and substitutes the
query value instead. -/
theorem C9_witness :
    resolveParam
      { method := "GET", params := [("u", .str "")],
        query := [("u", .str "qq")], body := [("u", .str "bb")] }
      "u" "\x7b\x7bu\x7d\x7d" = "qq" :=
  (C9_falsy_values_skipped_in_order
    { method := "GET", params := [("u", .str "")],
      query := [("u", .str "qq")], body := [("u", .str "bb")] }
    "u" "\x7b\x7bu\x7d\x7d").2.1 rfl (.str "qq") rfl rfl

/-- C10: updating an existing endpoint changes only the payload-supplied
fields among response, method, statusCode, delay and headers — every
field not supplied retains its previous value — and the endpoint's
identity key (both the registry key set and the stored `id`) and all
other registry entries are unchanged. -/
theorem C10_update_only_supplied_fields (db : List (String × MockConfig))
    (id : String) (p : UpdatePayload) (now : Nat) (cfg : MockConfig)
    (h : db.lookup id = some cfg) :
    ∃ cfg',
      (updateEndpoint db id p now).1 = .updated cfg' ∧
      (updateEndpoint db id p now).2.lookup id = some cfg' ∧
      cfg'.id = cfg.id ∧
      (p.response = none → cfg'.response = cfg.response) ∧
      (p.method = none → cfg'.method = cfg.method) ∧
      (p.statusCode = none → cfg'.statusCode = cfg.statusCode) ∧
      (p.delay = none → cfg'.delay = cfg.delay) ∧
      (p.headers = none → cfg'.headers = cfg.headers) ∧
      (updateEndpoint db id p now).2.map Prod.fst = db.map Prod.fst ∧
      ∀ k, k ≠ id → (updateEndpoint db id p now).2.lookup k = db.lookup k := by
  simp only [updateEndpoint, h]
  refine ⟨_, rfl, mapSet_lookup_self db id _, rfl, ?_, ?_, ?_, ?_, ?_,
    mapSet_keys_present db id _ (by rw [h]; rfl),
    fun k hk => mapSet_lookup_ne db id _ k hk⟩
  · intro hn
    rw [hn]
  · intro hn
    rw [hn]
  · intro hn
    rw [hn]
  · intro hn
    rw [hn]
  · intro hn
    rw [hn]

/-- C10 witness: the theorem at a concrete registry and a payload that
supplies only `response` — `method`, `statusCode`, `delay` and `headers`
retain their previous values, the key set is unchanged, and the other
entry is untouched. -/
theorem C10_update_witness :
    ∃ cfg',
      (updateEndpoint
        [("e", { id := "e", method := "POST", response := .str "old",
                 statusCode := 418, delay := 3, headers := [("h", "v")],
                 createdAt := 1, updatedAt := 1 }),
         ("f", { id := "f", method := "GET", response := .num 0,
                 statusCode := 200, delay := 0, headers := [],
                 createdAt := 2, updatedAt := 2 })]
        "e"
        { response := some (.str "new"), method := none,
          statusCode := none, delay := none, headers := none } 9).1 =
        .updated cfg' ∧
      (updateEndpoint
        [("e", { id := "e", method := "POST", response := .str "old",
                 statusCode := 418, delay := 3, headers := [("h", "v")],
                 createdAt := 1, updatedAt := 1 }),
         ("f", { id := "f", method := "GET", response := .num 0,
                 statusCode := 200, delay := 0, headers := [],
                 createdAt := 2, updatedAt := 2 })]
        "e"
        { response := some (.str "new"), method := none,
          statusCode := none, delay := none, headers := none } 9).2.lookup
          "e" = some cfg' ∧
      cfg'.id = ({ id := "e", method := "POST", response := .str "old",
                   statusCode := 418, delay := 3, headers := [("h", "v")],
                   createdAt := 1, updatedAt := 1 } : MockConfig).id ∧
      ((some (JValue.str "new") : Option JValue) = none →
        cfg'.response = .str "old") ∧
      ((none : Option String) = none → cfg'.method = "POST") ∧
      ((none : Option Nat) = none → cfg'.statusCode = 418) ∧
      ((none : Option Nat) = none → cfg'.delay = 3) ∧
      ((none : Option (List (String × String))) = none →
        cfg'.headers = [("h", "v")]) ∧
      (updateEndpoint
        [("e", { id := "e", method := "POST", response := .str "old",
                 statusCode := 418, delay := 3, headers := [("h", "v")],
                 createdAt := 1, updatedAt := 1 }),
         ("f", { id := "f", method := "GET", response := .num 0,
                 statusCode := 200, delay := 0, headers := [],
                 createdAt := 2, updatedAt := 2 })]
        "e"
        { response := some (.str "new"), method := none,
          statusCode := none, delay := none, headers := none } 9).2.map
          Prod.fst = ["e", "f"] ∧
      ∀ k, k ≠ "e" →
        (updateEndpoint
          [("e", { id := "e", method := "POST", response := .str "old",
                   statusCode := 418, delay := 3, headers := [("h", "v")],
                   createdAt := 1, updatedAt := 1 }),
           ("f", { id := "f", method := "GET", response := .num 0,
                   statusCode := 200, delay := 0, headers := [],
                   createdAt := 2, updatedAt := 2 })]
          "e"
          { response := some (.str "new"), method := none,
            statusCode := none, delay := none, headers := none } 9).2.lookup
            k =
          List.lookup k
            [("e", { id := "e", method := "POST", response := .str "old",
                     statusCode := 418, delay := 3,
                     headers := [("h", "v")], createdAt := 1,
                     updatedAt := 1 }),
             ("f", { id := "f", method := "GET", response := .num 0,
                     statusCode := 200, delay := 0, headers := [],
                     createdAt := 2, updatedAt := 2 })] :=
  C10_update_only_supplied_fields
    [("e", { id := "e", method := "POST", response := .str "old",
             statusCode := 418, delay := 3, headers := [("h", "v")],
             createdAt := 1, updatedAt := 1 }),
     ("f", { id := "f", method := "GET", response := .num 0,
             statusCode := 200, delay := 0, headers := [],
             createdAt := 2, updatedAt := 2 })]
    "e"
    { response := some (.str "new"), method := none, statusCode := none,
      delay := none, headers := none } 9
    { id := "e", method := "POST", response := .str "old",
      statusCode := 418, delay := 3, headers := [("h", "v")],
      createdAt := 1, updatedAt := 1 } rfl
